import Mathlib

/-!
Shallow embedding of the `xlsft/logger` module (`src/mod.ts`): a bounded
in-process log accumulator with severity-aware formatting, console
mirroring and subscriber emission.  Pure functions below are translated
statement-by-statement from the TypeScript source; the clock and the
chalk color backend are external collaborators and are passed in as
explicit parameters (a timestamp string per call, a record of decoration
functions).
-/

/-- The `LogType` enum of the source: Default, Info, Warn, Error. -/
inductive LogType where
  | Default
  | Info
  | Warn
  | Error
deriving DecidableEq, Repr

/-- Reverse enum lookup `LogType[t]` of the source: the variant's name. -/
def LogType.name : LogType → String
  | .Default => "Default"
  | .Info => "Info"
  | .Warn => "Warn"
  | .Error => "Error"

/-- The `LogObject` interface: one log record.  The source field `from`
is a reserved word in Lean and is embedded as `from_`. -/
structure LogObject where
  timestamp : String
  msg : String
  from_ : Option String
  log : String
  type : LogType
deriving DecidableEq, Repr

/-- The `LoggerOptions` interface.  `maxStackSize` is a JS number, which
may be negative, hence `Int`. -/
structure LoggerOptions where
  maxStackSize : Option Int
  colored : Option Bool
deriving DecidableEq, Repr

/-- `PrepareLog = Omit<LogObject, "log" | "timestamp">`. -/
structure PrepareLog where
  msg : String
  from_ : Option String
  type : LogType
deriving DecidableEq, Repr

/-- The chalk color backend, an external collaborator: one decoration
function per color used by the source's `Colorize` table. -/
structure Chalk where
  blue : String → String
  yellowBright : String → String
  red : String → String
  yellow : String → String
  cyan : String → String

/-- The shape of the source's `Colorize` constant. -/
structure ColorizeTable where
  coloredType : LogType → String → String
  timestamp : String → String
  from_ : String → String

/-- The source's `Colorize` constant, parameterised by the chalk backend:
coloredType maps Default to the identity and Info, Warn, Error to blue,
yellowBright and red; timestamps are yellow and sources cyan. -/
def Colorize (ch : Chalk) : ColorizeTable where
  coloredType := fun t s =>
    match t with
    | .Default => s
    | .Info => ch.blue s
    | .Warn => ch.yellowBright s
    | .Error => ch.red s
  timestamp := ch.yellow
  from_ := ch.cyan

/-- JS `String.prototype.toUpperCase()` on the ASCII enum names:
uppercase every character. -/
def jsToUpperCase (s : String) : String :=
  String.mk (s.data.map Char.toUpper)

/-- JS truthiness of a `string | undefined` value (`if (log.from)`):
undefined and the empty string are falsy. -/
def jsTruthyStr : Option String → Bool
  | none => false
  | some s => s ≠ ""

/-- JS truthiness of `this.options?.colored` (`boolean | undefined` read
through an optional options object). -/
def coloredEff : Option LoggerOptions → Bool
  | none => false
  | some o => o.colored.getD false

/-- The capacity expression `this.options?.maxStackSize || 500` of
`createLog`: undefined and 0 are falsy and fall back to 500; any other
number, negative ones included, is used as-is. -/
def effectiveMaxStackSize : Option LoggerOptions → Int
  | none => 500
  | some o =>
    match o.maxStackSize with
    | none => 500
    | some n => if n = 0 then 500 else n

/-- `Logger.prepareLog`, with the timestamp string (built from the clock
in the source) passed in. -/
def prepareLog (ch : Chalk) (options : Option LoggerOptions) (timestamp : String)
    (log : PrepareLog) : LogObject :=
  let colorize := Colorize ch
  let type := jsToUpperCase (LogType.name log.type)
  let logBuilder := ""
  let logBuilder :=
    if log.type ≠ LogType.Default then
      (if coloredEff options then logBuilder ++ colorize.coloredType log.type type
       else logBuilder ++ type) ++ ": "
    else logBuilder
  let logBuilder :=
    if coloredEff options then logBuilder ++ "[" ++ colorize.timestamp timestamp ++ "]"
    else logBuilder ++ "[" ++ timestamp ++ "]"
  let logBuilder :=
    if jsTruthyStr log.from_ then
      logBuilder ++ " " ++
        (if coloredEff options then "(" ++ colorize.from_ (log.from_.getD "") ++ "): "
         else "(" ++ log.from_.getD "" ++ "): ")
    else logBuilder ++ ": "
  let logBuilder := logBuilder ++ log.msg
  { timestamp := timestamp, msg := log.msg, from_ := log.from_,
    log := logBuilder, type := log.type }

/-- Logger state: the options (fixed at construction), the `logarr`
buffer, the lines written to the console sink, and, modelled from the
spec's emission contract (the EventEmitter base class is an external
collaborator), the list of records each subscriber has received so far,
in subscription order. -/
structure LoggerState where
  options : Option LoggerOptions
  logarr : List LogObject
  console : List String
  subscribers : List (List LogObject)
deriving Repr

/-- A freshly constructed `new Logger(options)` with `n` subscribers
registered before any record-creation call. -/
def initState (options : Option LoggerOptions) (n : Nat) : LoggerState :=
  { options := options, logarr := [], console := [], subscribers := List.replicate n [] }

/-- The buffer update of `createLog`: if the current length exceeds the
effective capacity, `shift()` the oldest record, then `push` the new one. -/
def logarrStep (options : Option LoggerOptions) (readyLog : LogObject)
    (arr : List LogObject) : List LogObject :=
  (if (arr.length : Int) > effectiveMaxStackSize options then arr.tail else arr) ++ [readyLog]

/-- The closure returned by `Logger.createLog(type)`, applied to
`(msg, from)`, with the timestamp passed in: build the record via
`prepareLog`, update the buffer, mirror the line to the console, and
(modelled from the spec's emission contract) deliver the record to every
current subscriber synchronously, in subscription order. -/
def createLog (ch : Chalk) (type : LogType) (timestamp : String) (msg : String)
    (from_ : Option String) (st : LoggerState) : LoggerState :=
  let preLog : PrepareLog := { msg := msg, from_ := from_, type := type }
  let readyLog := prepareLog ch st.options timestamp preLog
  { st with
    logarr := logarrStep st.options readyLog st.logarr
    console := st.console ++ [readyLog.log]
    subscribers := st.subscribers.map (fun rs => rs ++ [readyLog]) }

/-- One public record-creation call: `log`, `info`, `warn` or `error`
(each delegates to `createLog` with the corresponding `LogType`),
together with the message, the optional source and the timestamp string
the clock returns during that call. -/
structure Call where
  type : LogType
  timestamp : String
  msg : String
  from_ : Option String
deriving DecidableEq, Repr

/-- Run one call against the logger. -/
def doCall (ch : Chalk) (c : Call) (st : LoggerState) : LoggerState :=
  createLog ch c.type c.timestamp c.msg c.from_ st

/-- Run a sequence of calls, left to right. -/
def runCalls (ch : Chalk) (st : LoggerState) : List Call → LoggerState
  | [] => st
  | c :: cs => runCalls ch (doCall ch c st) cs

/-- The record each call of a sequence creates (it depends only on the
options, which are fixed for the lifetime of the logger). -/
def recordsOf (ch : Chalk) (options : Option LoggerOptions) (cs : List Call) :
    List LogObject :=
  cs.map (fun c => prepareLog ch options c.timestamp
    { msg := c.msg, from_ := c.from_, type := c.type })

/-- `Logger.snapshot(format?)`: `format` is `boolean | undefined` and is
tested for truthiness; truthy returns the newline-join of the formatted
lines, otherwise a (spread-copied) record array. -/
def snapshot (st : LoggerState) (format : Option Bool) : Sum String (List LogObject) :=
  if format.getD false then
    Sum.inl (String.intercalate "\n" (st.logarr.map (fun l => l.log)))
  else
    Sum.inr st.logarr

/-- Deprecated `Logger.generate()`: push each record's `log` field and
join with a newline. -/
def generate (st : LoggerState) : String :=
  String.intercalate "\n" (st.logarr.map (fun l => l.log))

/-- Deprecated `Logger.generate_array()`: returns `this.logarr` itself
(the internal array, not a copy); this definition gives its value, the
aliasing is captured by the reference model below. -/
def generate_array (st : LoggerState) : List LogObject :=
  st.logarr

/-- An identity chalk backend (decoration is a pass-through), used for
concrete evaluations. -/
def chalkId : Chalk :=
  { blue := id, yellowBright := id, red := id, yellow := id, cyan := id }

/-!
Reference model.  JS arrays are heap objects passed by reference:
`generate_array()` hands out the internal array itself, while
`snapshot(false)` spreads it into a fresh array.  To reason about
aliasing we model the heap explicitly: cells indexed by `Nat`, the
logger's buffer living in cell `bufIdx`, and `next` the next free cell.
-/

/-- A logger together with the surrounding array heap: `heap i` is the
content of array cell `i`, cells at index `≥ next` are unallocated, and
the logger's `logarr` field holds a reference to cell `bufIdx`. -/
structure RefLogger where
  heap : Nat → List LogObject
  next : Nat
  bufIdx : Nat

/-- Read the logger's buffer through its reference. -/
def readBuf (L : RefLogger) : List LogObject :=
  L.heap L.bufIdx

/-- A caller overwriting the content of the array cell `i` it holds a
reference to (e.g. pushing onto or clearing a returned array). -/
def writeCell (L : RefLogger) (i : Nat) (v : List LogObject) : RefLogger :=
  { L with heap := fun j => if j = i then v else L.heap j }

/-- `generate_array()` in the reference model: it returns `this.logarr`,
i.e. a reference to the internal buffer cell itself. -/
def generate_arrayRef (L : RefLogger) : Nat :=
  L.bufIdx

/-- `snapshot(format?)` in the reference model: the truthy branch only
reads the buffer and joins the lines; the other branch evaluates
`[...this.logarr]`, allocating a fresh cell holding a copy of the buffer
and returning a reference to it. -/
def snapshotRef (L : RefLogger) (format : Option Bool) :
    RefLogger × Sum String Nat :=
  if format.getD false then
    (L, Sum.inl (String.intercalate "\n" ((readBuf L).map (fun l => l.log))))
  else
    ({ L with
        heap := fun j => if j = L.next then readBuf L else L.heap j
        next := L.next + 1 },
     Sum.inr L.next)

/-- A record-creation call in the reference model: compute the new buffer
with the same `prepareLog`/`logarrStep` logic and store it back through
the buffer reference (console and emission are omitted here; they do not
touch the heap). -/
def createLogRef (ch : Chalk) (options : Option LoggerOptions) (c : Call)
    (L : RefLogger) : RefLogger :=
  writeCell L L.bufIdx
    (logarrStep options
      (prepareLog ch options c.timestamp { msg := c.msg, from_ := c.from_, type := c.type })
      (readBuf L))

/-- A sample record, as `log("m")` creates it at timestamp `"t"` with no
options. -/
def sampleRecord : LogObject :=
  { timestamp := "t", msg := "m", from_ := none, log := "[t]: m", type := .Default }

/-- A reference logger whose buffer cell 0 holds one record. -/
def refLogger1 : RefLogger :=
  { heap := fun j => if j = 0 then [sampleRecord] else [], next := 1, bufIdx := 0 }

/-- A logger state after two calls on a default-constructed logger. -/
def loggerState2 : LoggerState :=
  runCalls chalkId (initState none 0)
    [ { type := .Info, timestamp := "t1", msg := "a", from_ := none },
      { type := .Default, timestamp := "t2", msg := "b", from_ := some "s" } ]

example :
    (prepareLog chalkId none "t1" { msg := "a", from_ := none, type := .Default }).log
      = "[t1]: a" := by decide

example :
    (prepareLog chalkId (some { maxStackSize := some 2, colored := none }) "t2"
      { msg := "b", from_ := some "X", type := .Warn }).log
      = "WARN: [t2] (X): b" := by decide

example :
    ((runCalls chalkId (initState (some { maxStackSize := some 1, colored := none }) 0)
      [ { type := .Default, timestamp := "t1", msg := "a", from_ := none },
        { type := .Default, timestamp := "t2", msg := "b", from_ := none } ]).logarr).length
      = 2 := by decide

/-! ### Helper lemmas -/

lemma prepareLog_congr (ch : Chalk) {o1 o2 : Option LoggerOptions} (ts : String)
    (p : PrepareLog) (h : coloredEff o1 = coloredEff o2) :
    prepareLog ch o1 ts p = prepareLog ch o2 ts p := by
  simp only [prepareLog, h]

lemma logarrStep_congr {o1 o2 : Option LoggerOptions} (r : LogObject)
    (a : List LogObject) (h : effectiveMaxStackSize o1 = effectiveMaxStackSize o2) :
    logarrStep o1 r a = logarrStep o2 r a := by
  simp only [logarrStep, h]

lemma doCall_options (ch : Chalk) (c : Call) (st : LoggerState) :
    (doCall ch c st).options = st.options := rfl

lemma runCalls_options (ch : Chalk) (cs : List Call) (st : LoggerState) :
    (runCalls ch st cs).options = st.options := by
  induction cs generalizing st with
  | nil => rfl
  | cons c cs ih => simpa [runCalls] using ih (doCall ch c st)

lemma runCalls_logarr_congr (ch : Chalk) (cs : List Call)
    {o1 o2 : Option LoggerOptions} (a : List LogObject)
    (con1 con2 : List String) (sub1 sub2 : List (List LogObject))
    (hm : effectiveMaxStackSize o1 = effectiveMaxStackSize o2)
    (hc : coloredEff o1 = coloredEff o2) :
    (runCalls ch ⟨o1, a, con1, sub1⟩ cs).logarr
      = (runCalls ch ⟨o2, a, con2, sub2⟩ cs).logarr := by
  induction cs generalizing a con1 con2 sub1 sub2 with
  | nil => rfl
  | cons c cs ih =>
    show (runCalls ch (doCall ch c ⟨o1, a, con1, sub1⟩) cs).logarr
      = (runCalls ch (doCall ch c ⟨o2, a, con2, sub2⟩) cs).logarr
    have hr : prepareLog ch o1 c.timestamp { msg := c.msg, from_ := c.from_, type := c.type }
        = prepareLog ch o2 c.timestamp { msg := c.msg, from_ := c.from_, type := c.type } :=
      prepareLog_congr ch c.timestamp _ hc
    have hs : logarrStep o1 (prepareLog ch o1 c.timestamp
          { msg := c.msg, from_ := c.from_, type := c.type }) a
        = logarrStep o2 (prepareLog ch o2 c.timestamp
          { msg := c.msg, from_ := c.from_, type := c.type }) a := by
      rw [hr]; exact logarrStep_congr _ a hm
    simp only [doCall, createLog]
    rw [hs]
    exact ih _ _ _ _ _

lemma doCall_logarr_of_neg (ch : Chalk) (c : Call) (st : LoggerState)
    (hneg : effectiveMaxStackSize st.options < 0) (hlen : st.logarr.length ≤ 1) :
    (doCall ch c st).logarr
      = [prepareLog ch st.options c.timestamp
          { msg := c.msg, from_ := c.from_, type := c.type }] := by
  have hgt : (st.logarr.length : Int) > effectiveMaxStackSize st.options :=
    lt_of_lt_of_le hneg (Int.ofNat_nonneg _)
  have htail : st.logarr.tail = [] := by
    match st.logarr, hlen with
    | [], _ => rfl
    | [x], _ => rfl
  simp [doCall, createLog, logarrStep, if_pos hgt, htail]

lemma runCalls_logarr_of_neg (ch : Chalk) (cs : List Call) (c : Call) :
    ∀ st : LoggerState, effectiveMaxStackSize st.options < 0 → st.logarr.length ≤ 1 →
    (runCalls ch st (cs ++ [c])).logarr
      = [prepareLog ch st.options c.timestamp
          { msg := c.msg, from_ := c.from_, type := c.type }] := by
  induction cs with
  | nil =>
    intro st hneg hlen
    simpa [runCalls] using doCall_logarr_of_neg ch c st hneg hlen
  | cons c' cs ih =>
    intro st hneg hlen
    show (runCalls ch (doCall ch c' st) (cs ++ [c])).logarr = _
    have h1 : (doCall ch c' st).options = st.options := rfl
    have h2 : (doCall ch c' st).logarr.length ≤ 1 := by
      rw [doCall_logarr_of_neg ch c' st hneg hlen]; exact le_refl 1
    have := ih (doCall ch c' st) (by rw [h1]; exact hneg) h2
    rwa [h1] at this

/-- C1: the claim says a capacity-C logger holds exactly min(N, C) records
after N calls, with one eviction per over-capacity insertion.  The code
evicts only when the length already exceeds the capacity before the push,
so with maxStackSize = 1 two calls leave 2 records in the buffer, not
min(2, 1) = 1 — contradicting the options documentation "Maximum number
of logs stored in array". -/
theorem capacity_one_two_calls_retains_two :
    ((runCalls chalkId
        (initState (some { maxStackSize := some 1, colored := some false }) 0)
        [ { type := .Default, timestamp := "t1", msg := "a", from_ := none },
          { type := .Default, timestamp := "t2", msg := "b", from_ := none } ]).logarr).length
      = 2
    ∧ (2 : Nat) ≠ min 2 1 := by
  constructor
  · decide
  · decide

/-- C2: the claim expects snapshot(false) after log("a"), warn("b","X"),
error("c") on a capacity-2 uncolored logger to hold only the "b" and "c"
records.  Evaluating the code: all three records survive (the "a" record
is not evicted), though "b" and "c" are formatted exactly as the claim
states. -/
theorem scenario_capacity_two_retains_three :
    snapshot
      (runCalls chalkId
        (initState (some { maxStackSize := some 2, colored := some false }) 0)
        [ { type := .Default, timestamp := "t1", msg := "a", from_ := none },
          { type := .Warn, timestamp := "t2", msg := "b", from_ := some "X" },
          { type := .Error, timestamp := "t3", msg := "c", from_ := none } ])
      (some false)
    = Sum.inr
      [ { timestamp := "t1", msg := "a", from_ := none, log := "[t1]: a", type := .Default },
        { timestamp := "t2", msg := "b", from_ := some "X",
          log := "WARN: [t2] (X): b", type := .Warn },
        { timestamp := "t3", msg := "c", from_ := none,
          log := "ERROR: [t3]: c", type := .Error } ] := by
  decide

/-- C3 counterexample: the claim says a negative maxStackSize behaves
like the default 500.  With maxStackSize = -1 two calls leave 1 record,
while the default-constructed logger keeps both. -/
theorem negative_capacity_differs_from_default_cex :
    ((runCalls chalkId
        (initState (some { maxStackSize := some (-1), colored := none }) 0)
        [ { type := .Default, timestamp := "t1", msg := "a", from_ := none },
          { type := .Default, timestamp := "t2", msg := "b", from_ := none } ]).logarr).length
      = 1
    ∧ ((runCalls chalkId (initState none 0)
        [ { type := .Default, timestamp := "t1", msg := "a", from_ := none },
          { type := .Default, timestamp := "t2", msg := "b", from_ := none } ]).logarr).length
      = 2 := by
  constructor
  · decide
  · decide

/-- C3 amended: a maxStackSize of zero is falsy and silently falls back
to the default capacity 500, so the buffer evolves exactly as with the
default configuration; a negative maxStackSize, however, is truthy and
used as-is, making the eviction guard fire on every insertion, so after
any nonempty call sequence the buffer holds exactly the single record of
the most recent call. -/
theorem nonpositive_capacity_amended :
    (∀ cf : Option Bool,
      effectiveMaxStackSize (some { maxStackSize := some 0, colored := cf })
        = effectiveMaxStackSize none)
    ∧ (∀ (ch : Chalk) (cf : Option Bool) (cs : List Call) (n : Nat),
      (runCalls ch (initState (some { maxStackSize := some 0, colored := cf }) n) cs).logarr
        = (runCalls ch (initState (some { maxStackSize := none, colored := cf }) n) cs).logarr)
    ∧ (∀ (ch : Chalk) (o : Option LoggerOptions) (cs : List Call) (c : Call),
      effectiveMaxStackSize o < 0 →
      (runCalls ch (initState o 0) (cs ++ [c])).logarr
        = [prepareLog ch o c.timestamp
            { msg := c.msg, from_ := c.from_, type := c.type }]) := by
  refine ⟨fun cf => rfl, fun ch cf cs n => ?_, fun ch o cs c hneg => ?_⟩
  · exact runCalls_logarr_congr ch cs [] [] [] _ _ rfl rfl
  · exact runCalls_logarr_of_neg ch cs c (initState o 0) hneg (by simp [initState])

/-- C3 amended, witness: with maxStackSize = -1, two calls leave exactly
the record of the second call. -/
theorem nonpositive_capacity_amended_witness :
    effectiveMaxStackSize (some { maxStackSize := some (-1), colored := none }) < 0
    ∧ (runCalls chalkId
        (initState (some { maxStackSize := some (-1), colored := none }) 0)
        ([ { type := .Default, timestamp := "t1", msg := "a", from_ := none } ]
          ++ [ { type := .Default, timestamp := "t2", msg := "b", from_ := none } ])).logarr
      = [prepareLog chalkId (some { maxStackSize := some (-1), colored := none }) "t2"
          { msg := "b", from_ := none, type := .Default }] :=
  ⟨by decide,
   nonpositive_capacity_amended.2.2 chalkId
     (some { maxStackSize := some (-1), colored := none })
     [ { type := .Default, timestamp := "t1", msg := "a", from_ := none } ]
     { type := .Default, timestamp := "t2", msg := "b", from_ := none }
     (by decide)⟩

/-- C4 counterexample: the claim says an empty-string source is rendered
per the source-present rule, i.e. " (", the empty source, "): " after the
timestamp bracket — which would give "[t] (): m".  The code tests
`if (log.from)` and the empty string is falsy, so the absent-source
branch runs and the line is "[t]: m". -/
theorem empty_source_rendered_absent_cex :
    (prepareLog chalkId none "t" { msg := "m", from_ := some "", type := .Default }).log
      = "[t]: m"
    ∧ (prepareLog chalkId none "t" { msg := "m", from_ := some "", type := .Default }).log
      ≠ "[t] (): m" := by
  constructor
  · decide
  · decide

/-- C4 amended: record creation is total and embeds every message
unmodified as the final segment of the line (so an empty message yields
exactly the prefix), but an empty-string source is falsy and is rendered
per the source-absent rule, identically to passing no source at all. -/
theorem degenerate_inputs_amended :
    (∀ (ch : Chalk) (o : Option LoggerOptions) (ts : String) (f : Option String)
        (t : LogType) (m : String),
      (prepareLog ch o ts { msg := m, from_ := f, type := t }).log
          = (prepareLog ch o ts { msg := "", from_ := f, type := t }).log ++ m
        ∧ (prepareLog ch o ts { msg := m, from_ := f, type := t }).msg = m)
    ∧ (∀ (ch : Chalk) (o : Option LoggerOptions) (ts : String) (t : LogType) (m : String),
      (prepareLog ch o ts { msg := m, from_ := some "", type := t }).log
        = (prepareLog ch o ts { msg := m, from_ := none, type := t }).log) := by
  constructor
  · intro ch o ts f t m
    constructor
    · simp [prepareLog, String.append_empty]
    · rfl
  · intro ch o ts t m
    simp [prepareLog, jsTruthyStr]

/-- C5 counterexample: the claim says generate_array is interchangeable
with snapshot(false) including its defensive-copy behaviour.  On a
one-record logger, clearing the array returned by generate_array clears
the internal buffer itself (it is the same array), while clearing the
array returned by snapshot(false) leaves the buffer intact. -/
theorem generate_array_alias_cex :
    readBuf (writeCell refLogger1 (generate_arrayRef refLogger1) []) ≠ readBuf refLogger1
    ∧ readBuf (writeCell (snapshotRef refLogger1 (some false)).1 1 []) = readBuf refLogger1 := by
  constructor
  · decide
  · decide

/-- C5 amended: generate() returns the identical string to snapshot(true)
and generate_array() returns a sequence equal in value to snapshot(false),
but generate_array hands out the internal array itself (an alias to the
buffer cell), whereas snapshot(false) allocates a fresh cell holding a
copy — so the two are not interchangeable with respect to caller
mutation. -/
theorem generate_snapshot_equiv_amended :
    (∀ st : LoggerState, Sum.inl (generate st) = snapshot st (some true))
    ∧ (∀ st : LoggerState, Sum.inr (generate_array st) = snapshot st (some false))
    ∧ (∀ L : RefLogger,
        generate_arrayRef L = L.bufIdx
        ∧ (snapshotRef L (some false)).2 = Sum.inr L.next
        ∧ (snapshotRef L (some false)).1.heap L.next = readBuf L) := by
  refine ⟨fun st => rfl, fun st => rfl, fun L => ⟨rfl, rfl, ?_⟩⟩
  simp [snapshotRef]

lemma readBuf_writeCell_ne (L : RefLogger) (i : Nat) (v : List LogObject)
    (h : L.bufIdx ≠ i) : readBuf (writeCell L i v) = readBuf L := by
  simp [readBuf, writeCell, h]

lemma readBuf_createLogRef (ch : Chalk) (o : Option LoggerOptions) (c : Call)
    (L : RefLogger) :
    readBuf (createLogRef ch o c L)
      = logarrStep o
          (prepareLog ch o c.timestamp { msg := c.msg, from_ := c.from_, type := c.type })
          (readBuf L) := by
  simp [createLogRef, writeCell, readBuf]

/-- C6: snapshot never modifies the logger's state — the truthy branch
returns the logger unchanged, the falsy branch leaves the buffer cell
untouched (it only allocates the copy) — and the sequence snapshot(false)
returns is an independent copy: overwriting the returned cell leaves the
buffer, and the buffer produced by any subsequent record-creation call,
exactly as they would have been without the mutation. -/
theorem snapshot_preserves_state (L : RefLogger) (fmt : Option Bool)
    (h : L.bufIdx < L.next) :
    readBuf (snapshotRef L fmt).1 = readBuf L
    ∧ (snapshotRef L (some true)).1 = L
    ∧ (∀ v, readBuf (writeCell (snapshotRef L (some false)).1 L.next v) = readBuf L)
    ∧ (∀ (ch : Chalk) (o : Option LoggerOptions) (c : Call) (v : List LogObject),
        readBuf (createLogRef ch o c (writeCell (snapshotRef L (some false)).1 L.next v))
          = readBuf (createLogRef ch o c L)) := by
  have hne : L.bufIdx ≠ L.next := Nat.ne_of_lt h
  have hbuf : readBuf (snapshotRef L (some false)).1 = readBuf L := by
    simp [snapshotRef, readBuf, hne]
  refine ⟨?_, rfl, fun v => ?_, fun ch o c v => ?_⟩
  · match fmt with
    | none => exact hbuf
    | some true => rfl
    | some false => exact hbuf
  · have : (snapshotRef L (some false)).1.bufIdx = L.bufIdx := rfl
    rw [readBuf_writeCell_ne _ _ _ (by rw [this]; exact hne)]
    exact hbuf
  · rw [readBuf_createLogRef, readBuf_createLogRef]
    have : readBuf (writeCell (snapshotRef L (some false)).1 L.next v) = readBuf L := by
      rw [readBuf_writeCell_ne _ _ _
        (show (snapshotRef L (some false)).1.bufIdx ≠ L.next from hne)]
      exact hbuf
    rw [this]

/-- C6 witness: on a concrete one-record logger, taking a snapshot with
the flag omitted leaves the buffer unchanged. -/
theorem snapshot_preserves_state_witness :
    readBuf (snapshotRef refLogger1 none).1 = readBuf refLogger1 :=
  (snapshot_preserves_state refLogger1 none (by decide)).1

/-- C7: snapshot(true) is exactly the newline-join of the formattedLine
(the `log` field) of each record snapshot(false) returns, in order. -/
theorem snapshot_formatted_join (st : LoggerState) (l : List LogObject)
    (h : snapshot st (some false) = Sum.inr l) :
    snapshot st (some true)
      = Sum.inl (String.intercalate "\n" (l.map (fun r => r.log))) := by
  have hl : st.logarr = l := by
    simpa [snapshot] using h
  simp [snapshot, hl]

/-- C7 witness: on a concrete two-record logger. -/
theorem snapshot_formatted_join_witness :
    snapshot loggerState2 (some true)
      = Sum.inl (String.intercalate "\n" (loggerState2.logarr.map (fun r => r.log))) :=
  snapshot_formatted_join loggerState2 loggerState2.logarr rfl

lemma bracket_colon_merge (s : String) : "]" ++ (": " ++ s) = "]: " ++ s := by
  rw [← String.append_assoc]; exact rfl

lemma bracket_space_merge (s : String) : "]" ++ (" " ++ s) = "] " ++ s := by
  rw [← String.append_assoc]; exact rfl

lemma colon_bracket_merge (s : String) : ": " ++ ("[" ++ s) = ": [" ++ s := by
  rw [← String.append_assoc]; exact rfl

lemma prepareLog_log_eq (ch : Chalk) (o : Option LoggerOptions) (ts : String)
    (p : PrepareLog) :
    (prepareLog ch o ts p).log
      = (if p.type = LogType.Default then ""
         else (if coloredEff o then
                 (Colorize ch).coloredType p.type (jsToUpperCase (LogType.name p.type))
               else jsToUpperCase (LogType.name p.type)) ++ ": ")
        ++ ((if coloredEff o then "[" ++ (Colorize ch).timestamp ts ++ "]"
             else "[" ++ ts ++ "]")
        ++ ((if jsTruthyStr p.from_ then
               " " ++ (if coloredEff o then "(" ++ (Colorize ch).from_ (p.from_.getD "") ++ "): "
                       else "(" ++ p.from_.getD "" ++ "): ")
             else ": ")
        ++ p.msg)) := by
  by_cases ht : p.type = LogType.Default <;>
    cases hc : coloredEff o <;>
    cases hf : jsTruthyStr p.from_ <;>
    simp [prepareLog, ht, hc, hf, String.append_assoc, String.empty_append,
      bracket_colon_merge, bracket_space_merge, colon_bracket_merge]

/-- C8: for Info, Warn and Error the formatted line starts with the
uppercase severity name followed by ": " — decorated by the severity's
chalk color exactly when the colored flag is effective — and for Default
with coloring off it starts directly with "[". -/
theorem severity_label_start (ch : Chalk) (o : Option LoggerOptions) (ts : String)
    (p : PrepareLog) :
    (p.type = LogType.Info →
      ∃ rest, (prepareLog ch o ts p).log
        = (if coloredEff o then ch.blue "INFO" else "INFO") ++ ": " ++ rest)
    ∧ (p.type = LogType.Warn →
      ∃ rest, (prepareLog ch o ts p).log
        = (if coloredEff o then ch.yellowBright "WARN" else "WARN") ++ ": " ++ rest)
    ∧ (p.type = LogType.Error →
      ∃ rest, (prepareLog ch o ts p).log
        = (if coloredEff o then ch.red "ERROR" else "ERROR") ++ ": " ++ rest)
    ∧ (p.type = LogType.Default → coloredEff o = false →
      ∃ rest, (prepareLog ch o ts p).log = "[" ++ rest) := by
  obtain ⟨m, f, t⟩ := p
  refine ⟨fun h => ?_, fun h => ?_, fun h => ?_, fun h hc => ?_⟩ <;>
    simp only at h
  · subst h
    refine ⟨(if coloredEff o then "[" ++ (Colorize ch).timestamp ts ++ "]"
        else "[" ++ ts ++ "]")
      ++ ((if jsTruthyStr f then
            " " ++ (if coloredEff o then "(" ++ (Colorize ch).from_ (f.getD "") ++ "): "
                    else "(" ++ f.getD "" ++ "): ")
          else ": ") ++ m), ?_⟩
    rw [prepareLog_log_eq]
    cases hc : coloredEff o <;>
      simp [Colorize, hc, String.append_assoc,
        (by decide : jsToUpperCase (LogType.name LogType.Info) = "INFO")]
  · subst h
    refine ⟨(if coloredEff o then "[" ++ (Colorize ch).timestamp ts ++ "]"
        else "[" ++ ts ++ "]")
      ++ ((if jsTruthyStr f then
            " " ++ (if coloredEff o then "(" ++ (Colorize ch).from_ (f.getD "") ++ "): "
                    else "(" ++ f.getD "" ++ "): ")
          else ": ") ++ m), ?_⟩
    rw [prepareLog_log_eq]
    cases hc : coloredEff o <;>
      simp [Colorize, hc, String.append_assoc,
        (by decide : jsToUpperCase (LogType.name LogType.Warn) = "WARN")]
  · subst h
    refine ⟨(if coloredEff o then "[" ++ (Colorize ch).timestamp ts ++ "]"
        else "[" ++ ts ++ "]")
      ++ ((if jsTruthyStr f then
            " " ++ (if coloredEff o then "(" ++ (Colorize ch).from_ (f.getD "") ++ "): "
                    else "(" ++ f.getD "" ++ "): ")
          else ": ") ++ m), ?_⟩
    rw [prepareLog_log_eq]
    cases hc : coloredEff o <;>
      simp [Colorize, hc, String.append_assoc,
        (by decide : jsToUpperCase (LogType.name LogType.Error) = "ERROR")]
  · subst h
    refine ⟨ts ++ ("]"
      ++ ((if jsTruthyStr f then " " ++ ("(" ++ (f.getD "" ++ "): ")) else ": ") ++ m)), ?_⟩
    rw [prepareLog_log_eq]
    cases hf : jsTruthyStr f <;>
      simp [hc, hf, String.append_assoc, String.empty_append]

/-- C8 witness: a concrete uncolored Warn record starts with "WARN: ". -/
theorem severity_label_start_witness :
    ∃ rest, (prepareLog chalkId none "t"
        { msg := "m", from_ := none, type := LogType.Warn }).log
      = (if coloredEff none then chalkId.yellowBright "WARN" else "WARN") ++ ": " ++ rest :=
  (severity_label_start chalkId none "t" { msg := "m", from_ := none, type := LogType.Warn }).2.1 rfl

lemma runCalls_subscribers_console (ch : Chalk) (cs : List Call) :
    ∀ st : LoggerState,
      (runCalls ch st cs).subscribers
          = st.subscribers.map (fun rs => rs ++ recordsOf ch st.options cs)
        ∧ (runCalls ch st cs).console
          = st.console ++ (recordsOf ch st.options cs).map (fun r => r.log) := by
  induction cs with
  | nil =>
    intro st
    simp [runCalls, recordsOf]
  | cons c cs ih =>
    intro st
    have hopt : (doCall ch c st).options = st.options := rfl
    obtain ⟨h1, h2⟩ := ih (doCall ch c st)
    rw [hopt] at h1 h2
    constructor
    · show (runCalls ch (doCall ch c st) cs).subscribers = _
      rw [h1]
      simp [doCall, createLog, recordsOf, List.map_map, Function.comp,
        List.append_assoc]
    · show (runCalls ch (doCall ch c st) cs).console = _
      rw [h2]
      simp [doCall, createLog, recordsOf, List.append_assoc]

/-- C9: with a single subscriber registered before any record-creation
call, after any sequence of N calls the subscriber has received exactly
the N created records in creation order (each record is, by the single
atomic step of `createLog`, the one appended to the buffer by the
corresponding call), and the console sink mirrors those records' lines in
the same order.  The EventEmitter delivery itself is modelled from the
spec's emission contract. -/
theorem single_subscriber_emission (ch : Chalk) (o : Option LoggerOptions)
    (cs : List Call) :
    (runCalls ch (initState o 1) cs).subscribers = [recordsOf ch o cs]
    ∧ (recordsOf ch o cs).length = cs.length
    ∧ (runCalls ch (initState o 1) cs).console
        = (recordsOf ch o cs).map (fun r => r.log) := by
  obtain ⟨h1, h2⟩ := runCalls_subscribers_console ch cs (initState o 1)
  refine ⟨?_, ?_, ?_⟩
  · rw [h1]; simp [initState]
  · simp [recordsOf]
  · rw [h2]; simp [initState]

/-- C10: snapshot with the flag omitted (undefined) or false is the falsy
branch: it returns the record-array copy, identical to snapshot(false) —
in the reference model the identically allocated fresh copy — and the
joined-string form arises only from a strictly truthy flag. -/
theorem snapshot_falsy_default (st : LoggerState) (fmt : Option Bool)
    (h : fmt ≠ some true) :
    snapshot st fmt = Sum.inr st.logarr
    ∧ snapshot st fmt = snapshot st (some false)
    ∧ (∀ L : RefLogger, snapshotRef L fmt = snapshotRef L (some false)) := by
  have hg : fmt.getD false = false := by
    match fmt, h with
    | none, _ => rfl
    | some false, _ => rfl
    | some true, h => exact absurd rfl h
  refine ⟨?_, ?_, fun L => ?_⟩
  · simp [snapshot, hg]
  · simp [snapshot, hg]
  · simp [snapshotRef, hg]

/-- C10 witness: on a concrete logger with the flag omitted. -/
theorem snapshot_falsy_default_witness :
    snapshot loggerState2 none = Sum.inr loggerState2.logarr
    ∧ snapshot loggerState2 none = snapshot loggerState2 (some false)
    ∧ (∀ L : RefLogger, snapshotRef L none = snapshotRef L (some false)) :=
  snapshot_falsy_default loggerState2 none (by decide)
